import Mathlib

/-!
Verification of the event remap engine of evdevremapkeys
(src/evdevremapkeys.py), via a shallow embedding in Lean 4.

Machine events are modelled with Nat event types and codes and Int values.
The asyncio event loop is modelled by explicit state passing: the process
global dictionary repeat_tasks (line 39 of the source) becomes the tasks
field of RState, threaded through every call of remap_event, and output
device writes are accumulated in an emission list.
-/

namespace Evdev

/-- An input event: type, code and value, as read from the device and
mutated in place by remap_event (lines 73 to 75 and 89 of the source). -/
structure Event where
  type : Nat
  code : Nat
  value : Int
deriving DecidableEq, Repr

/-- One write to the virtual output device: either a written event
(output.write_event) or a synchronization marker (output.syn). -/
inductive Emission where
  | write (e : Event)
  | syn
deriving DecidableEq, Repr

/-- One normalized, ecode-resolved remapping rule as consumed by
remap_event: the dict keys code, type, value, ignore_depress and repeat
(value is always absent or a list after normalize_config; rate and count
are read only to be passed to the spawned repeat_event coroutine and do
not influence the registry bookkeeping modelled here).  A truthy repeat
entry of any shape enables the repeat branch, modelled as a Bool; the
field is called rep because repeat is a reserved word in Lean. -/
structure Remapping where
  code : Nat
  type : Option Nat := none
  value : Option (List Int) := none
  ignore_depress : Bool := false
  rep : Bool := false
deriving DecidableEq, Repr

/-- One entry of the repeat_tasks dictionary (line 39): the dictionary key
(the original_code computed at line 73), a unique identifier of the
asyncio task stored there (lines 85 to 86), and, as ghost data for
specification only, the code carried by the event when remap_event was
entered, that is the true source code of the press that spawned the
task.  The ghost origin field is never read by the dynamics. -/
structure TaskEntry where
  key : Nat
  tid : Nat
  origin : Nat
deriving DecidableEq, Repr

/-- The mutable state threaded through remap_event: the process global
repeat_tasks dictionary (association list with pairwise distinct keys,
in insertion order, like a Python dict), the identifiers of tasks that
received a cancel call, a counter supplying fresh task identifiers, and
the stream written to the virtual output device so far. -/
structure RState where
  tasks : List TaskEntry
  cancelled : List Nat
  nextId : Nat
  output : List Emission
deriving DecidableEq, Repr

/-- The empty initial state: repeat_tasks = \x7b\x7d, nothing written. -/
def initState : RState :=
  { tasks := [], cancelled := [], nextId := 0, output := [] }

/-- repeat_tasks.pop(original_code, None) (line 81): remove and return the
entry stored under the given key, if any. -/
def popTask (tasks : List TaskEntry) (k : Nat) : Option TaskEntry × List TaskEntry :=
  match tasks with
  | [] => (none, [])
  | t :: ts =>
    if t.key = k then (some t, ts)
    else
      let (r, ts2) := popTask ts k
      (r, t :: ts2)

/-- pressed = event.value is 1 (line 69).  The source compares with the
identity operator is, which on CPython small integers coincides with
numeric equality; modelled as equality with 1. -/
def pressedOf (v : Int) : Bool := v == 1

/-- The emission loop of lines 88 to 91 (also the inner loop of
repeat_event, lines 59 to 63): for each value, set event.value to it and
write the event followed by a synchronization marker.  Returns the event
as mutated by the loop together with the list of emissions. -/
def emitValues : Event → List Int → Event × List Emission
  | e, [] => (e, [])
  | e, v :: vs =>
    let e1 : Event := { e with value := v }
    let (e2, out) := emitValues e1 vs
    (e2, Emission.write e1 :: Emission.syn :: out)

/-- Line 75: event.type = remapping.get(type, None) or event.type.  A
type entry of 0 is falsy in Python and also falls back to the current
event type.  Line 74 only changed event.code, so reading the type before
or after it is equivalent. -/
def effType (r : Remapping) (e : Event) : Nat :=
  match r.type with
  | some t => if t = 0 then e.type else t
  | none => e.type

/-- Line 76: values = remapping.get(value, None) or [event.value].  An
absent entry and an empty list (falsy in Python) both fall back to the
current event value. -/
def effValues (r : Remapping) (e : Event) : List Int :=
  match r.value with
  | some (v :: vs) => v :: vs
  | _ => [e.value]

/-- Lines 81 to 83: repeat_task = repeat_tasks.pop(original_code, None);
if repeat_task: repeat_task.cancel(). -/
def cancelPop (s : RState) (k : Nat) : RState :=
  let pr := popTask s.tasks k
  { s with
    tasks := pr.2,
    cancelled := match pr.1 with
                 | some t => s.cancelled ++ [t.tid]
                 | none => s.cancelled }

/-- Lines 81 to 86 on a press: pop and cancel, then store a fresh task
under the same key (at the end, as a Python dict insert of an absent
key).  src is the ghost origin recorded in the entry. -/
def startTask (s : RState) (k : Nat) (src : Nat) : RState :=
  let s1 := cancelPop s k
  { s1 with
    tasks := s1.tasks ++ [{ key := k, tid := s1.nextId, origin := src }],
    nextId := s1.nextId + 1 }

/-- The for loop body of remap_event (lines 68 to 91), one recursive step
per rule of the list remappings[event.code] (the list is looked up once,
before the loop, by the caller).  src is ghost data: the code the event
carried when remap_event was entered, recorded in spawned TaskEntry
values for specification purposes only.
Per iteration, faithful to the source:
line 69: pressed = event.value is 1 (on the current, possibly mutated,
event value);
lines 70 to 72: if ignore_depress and not pressed, return from the whole
function (not continue), so later rules are not processed;
line 73: original_code = event.code, read from the current event, which
an earlier rule of the same list may already have overwritten: here the
code field of e before the update;
lines 74 and 75: event.code and event.type are overwritten;
line 76: the effective values list is computed;
lines 77 to 86: if the rule has a truthy repeat entry, pop and cancel,
then, only if pressed, store a fresh task (cancelPop and startTask);
lines 87 to 91: otherwise run the emission loop, which overwrites
event.value, and append its writes to the output stream. -/
def remapEventGo (src : Nat) : Event → List Remapping → RState → RState
  | _, [], s => s
  | e, r :: rs, s =>
    if r.ignore_depress && !pressedOf e.value then s
    else
      let e2 : Event := { e with code := r.code, type := effType r e }
      if r.rep then
        if pressedOf e.value then
          remapEventGo src e2 rs (startTask s e.code src)
        else
          remapEventGo src e2 rs (cancelPop s e.code)
      else
        remapEventGo src (emitValues e2 (effValues r e2)).1 rs
          { s with output := s.output ++ (emitValues e2 (effValues r e2)).2 }

/-- remappings[event.code]: association list lookup, empty list when the
code is absent (handle_events only calls remap_event for present codes). -/
def lookupRules (remappings : List (Nat × List Remapping)) (c : Nat) : List Remapping :=
  match remappings with
  | [] => []
  | (k, rules) :: rest => if k = c then rules else lookupRules rest c

/-- remap_event(output, event, remappings) (lines 67 to 91): iterate the
rule list remappings[event.code] over the shared state.  The ghost source
code recorded in spawned tasks is the code of the incoming event. -/
def remap_event (remappings : List (Nat × List Remapping)) (e : Event) (s : RState) : RState :=
  remapEventGo e.code e (lookupRules remappings e.code) s

/-- The code carried by an emission: the code of a written event, nothing
for a synchronization marker. -/
def emissionCode : Emission → Option Nat
  | Emission.write ev => some ev.code
  | Emission.syn => none

/-- The codes of the events written in an emission list, synchronization
markers dropped. -/
def writesCodes (l : List Emission) : List Nat :=
  l.filterMap emissionCode

/-! ## The repeat_event coroutine (lines 54 to 64) -/

/-- The while loop of repeat_event, with explicit fuel because the
unbounded case (count below zero after the substitution of line 56) never
terminates.  Each iteration is one cycle: decrement count by one, emit
every value in order with a synchronization marker after each, then sleep
for rate (the sleep carries no information here and is not modelled; the
source compares count with 0 using is not, which on CPython small
integers coincides with numeric inequality).  none means the fuel ran out
before the loop terminated. -/
def repeatLoop : Nat → Event → Int → List Int → Option (Event × List Emission)
  | 0, _, _, _ => none
  | fuel + 1, e, count, values =>
    if count = 0 then some (e, [])
    else
      let count1 := count - 1
      let (e1, out) := emitValues e values
      match repeatLoop fuel e1 count1 values with
      | none => none
      | some (e2, out2) => some (e2, out ++ out2)

/-- repeat_event(event, rate, count, values, output) (lines 54 to 64):
line 56 turns a count of 0 into -1, making the loop unbounded; then the
loop of lines 57 to 64 runs.  rate only feeds asyncio.sleep and is
dropped. -/
def repeat_event (e : Event) (count : Int) (values : List Int) (fuel : Nat) :
    Option (Event × List Emission) :=
  repeatLoop fuel e (if count = 0 then -1 else count) values

/-- The emissions of one full cycle of repeat_event starting from event e:
one write per value, in order, each followed by a synchronization
marker. -/
def repeatCycleOut (e : Event) (values : List Int) : List Emission :=
  (emitValues e values).2

/-- Reference iteration of n full cycles of the repeat loop, used to state
what a bounded repeat_event run produces. -/
def cycles (values : List Int) : Nat → Event → Event × List Emission
  | 0, e => (e, [])
  | n + 1, e =>
    let (e1, out) := emitValues e values
    let (e2, out2) := cycles values n e1
    (e2, out ++ out2)

/-! ## Configuration normalization (lines 134 to 151) -/

/-- A configured value entry: an integer scalar or a list of integers
(the two shapes the config schema admits for value). -/
inductive CfgValue where
  | scalar (n : Int)
  | list (l : List Int)
deriving DecidableEq, Repr

/-- A structured rule object of the raw configuration, before ecode
resolution: symbolic code and type names, optional value, and the
optional ignore_depress, repeat, rate and count entries (rep models the
repeat key, a reserved word in Lean; rate, a time in seconds, is kept
abstract as an integer number of milliseconds, its value is never
inspected by normalization). -/
structure CfgRule where
  code : String
  type : Option String := none
  value : Option CfgValue := none
  ignore_depress : Option Bool := none
  rep : Option Bool := none
  rate : Option Int := none
  count : Option Int := none
deriving DecidableEq, Repr

/-- One item of a configured rule list: a bare string (simple notation) or
a structured rule object. -/
inductive CfgMapping where
  | str (s : String)
  | rule (r : CfgRule)
deriving DecidableEq, Repr

/-- normalize_value(mapping) (lines 147 to 151): if the value entry is
absent or already a list, leave the mapping unchanged; otherwise wrap the
scalar in a singleton list. -/
def normalize_value (r : CfgRule) : CfgRule :=
  match r.value with
  | none => r
  | some (CfgValue.list _) => r
  | some (CfgValue.scalar n) => { r with value := some (CfgValue.list [n]) }

/-- The per-item branch of normalize_config (lines 138 to 143): a bare
string becomes a rule object holding only the code key; a rule object has
its value normalized. -/
def normalize_mapping : CfgMapping → CfgMapping
  | CfgMapping.str s => CfgMapping.rule { code := s }
  | CfgMapping.rule r => CfgMapping.rule (normalize_value r)

/-- normalize_config(remappings) (lines 134 to 145): rebuild the mapping,
normalizing every item of every rule list, keeping insertion order
(Python dicts preserve it). -/
def normalize_config (remappings : List (String × List CfgMapping)) :
    List (String × List CfgMapping) :=
  remappings.map (fun kv => (kv.1, kv.2.map normalize_mapping))

/-- The shape the specification claims for a value entry after
normalization: absent, or a non empty list. -/
def valueAbsentOrNonEmptyList : Option CfgValue → Bool
  | none => true
  | some (CfgValue.scalar _) => false
  | some (CfgValue.list l) => !l.isEmpty

/-! ## Shutdown coordination (lines 181 to 209)

register_device (lines 181 to 200) grabs the physical device (line 187)
and spawns the handle_events pump task (line 200); shutdown (lines 203
to 209) cancels every task of the loop other than itself, awaits them
all with return_exceptions=True, and stops the loop.  The string ungrab
does not occur anywhere in the source: no code path releases a grab, so
the ungrab counter below has no incrementing operation. -/

/-- The kind of an asyncio task of this program: a handle_events device
pump or a repeat_event task. -/
inductive TaskKind where
  | pump
  | repTask
deriving DecidableEq, Repr

/-- Status of an asyncio task: running, or cancelled with the
cancellation acknowledged by the gather of line 208. -/
inductive TaskStatus where
  | running
  | cancelledAck
deriving DecidableEq, Repr

/-- One asyncio task of the loop (the shutdown task itself excluded, as
in lines 205 to 206). -/
structure LoopTask where
  kind : TaskKind
  status : TaskStatus
deriving DecidableEq, Repr

/-- The event loop state: the tasks other than the shutdown coroutine,
the number of exclusive grabs taken (one per register_device call, line
187), the number of ungrab operations performed (no call site exists in
the source), and whether loop.stop() was called. -/
structure LoopState where
  tasks : List LoopTask
  grabbed : Nat
  ungrabCalls : Nat
  stopped : Bool
deriving DecidableEq, Repr

/-- The loop state before any device registration. -/
def initLoop : LoopState :=
  { tasks := [], grabbed := 0, ungrabCalls := 0, stopped := false }

/-- register_device(device) (lines 181 to 200), resource view: one grab is
taken (line 187) and one running pump task is spawned (line 200).
Capability computation and virtual output creation carry no state
relevant to the claims and are not modelled. -/
def register_device (l : LoopState) : LoopState :=
  { l with
    grabbed := l.grabbed + 1,
    tasks := l.tasks ++ [{ kind := TaskKind.pump, status := TaskStatus.running }] }

/-- task.cancel() followed by the acknowledgement that the gather of line
208 (return_exceptions=True) collects. -/
def cancelTask (t : LoopTask) : LoopTask :=
  { t with status := TaskStatus.cancelledAck }

/-- shutdown(loop) (lines 203 to 209): cancel every task of the loop
other than the shutdown coroutine itself, await them all, stop the loop.
No grab is released: the source contains no ungrab call. -/
def shutdown (l : LoopState) : LoopState :=
  { l with tasks := l.tasks.map cancelTask, stopped := true }

/-! ## Helper lemmas -/

/-- The emission loop leaves the type and the code of the event unchanged;
only its value field is overwritten. -/
theorem emitValues_fst_fields (e : Event) (vs : List Int) :
    (emitValues e vs).1.type = e.type ∧ (emitValues e vs).1.code = e.code := by
  induction vs generalizing e with
  | nil => simp [emitValues]
  | cons v vs ih =>
    simpa [emitValues] using ih { e with value := v }

/-- The emissions of the loop only depend on the type and the code of the
entering event, not on its value (the first iteration overwrites it). -/
theorem emitValues_congr (e f : Event) (vs : List Int)
    (ht : e.type = f.type) (hc : e.code = f.code) :
    (emitValues e vs).2 = (emitValues f vs).2 := by
  cases vs with
  | nil => simp [emitValues]
  | cons v vs =>
    have h1 : ({ e with value := v } : Event) = { f with value := v } := by
      cases e; cases f; simp_all
    simp [emitValues, h1]

/-- Every written event of the emission loop carries the code of the
entering event: one write per value, in order. -/
theorem writesCodes_emitValues (e : Event) (vs : List Int) :
    writesCodes (emitValues e vs).2 = List.replicate vs.length e.code := by
  induction vs generalizing e with
  | nil => simp [emitValues, writesCodes]
  | cons v vs ih =>
    simpa [emitValues, writesCodes, emissionCode, List.replicate]
      using ih { e with value := v }

/-- The registry operations leave the output stream untouched. -/
theorem cancelPop_output (s : RState) (k : Nat) : (cancelPop s k).output = s.output := rfl

/-- Starting a task leaves the output stream untouched. -/
theorem startTask_output (s : RState) (k src : Nat) :
    (startTask s k src).output = s.output := rfl

/-- remap_event only appends to the output stream: whatever was already
written stays a prefix of the final output. -/
theorem remapEventGo_output_prefix (src : Nat) (rules : List Remapping) :
    ∀ (e : Event) (s : RState),
      ∃ suffix, (remapEventGo src e rules s).output = s.output ++ suffix := by
  induction rules with
  | nil => exact fun e s => ⟨[], by simp [remapEventGo]⟩
  | cons r rs ih =>
    intro e s
    simp only [remapEventGo]
    by_cases hguard : (r.ignore_depress && !pressedOf e.value) = true
    · rw [if_pos hguard]
      exact ⟨[], by simp⟩
    · rw [if_neg hguard]
      by_cases hrep : r.rep = true
      · rw [if_pos hrep]
        by_cases hp : pressedOf e.value = true
        · rw [if_pos hp]
          obtain ⟨suf, hsuf⟩ :=
            ih { e with code := r.code, type := effType r e } (startTask s e.code src)
          rw [startTask_output] at hsuf
          exact ⟨suf, hsuf⟩
        · rw [if_neg hp]
          obtain ⟨suf, hsuf⟩ :=
            ih { e with code := r.code, type := effType r e } (cancelPop s e.code)
          rw [cancelPop_output] at hsuf
          exact ⟨suf, hsuf⟩
      · rw [if_neg hrep]
        obtain ⟨suf, hsuf⟩ :=
          ih (emitValues { e with code := r.code, type := effType r e }
                (effValues r { e with code := r.code, type := effType r e })).1
             { s with output := s.output ++
                 (emitValues { e with code := r.code, type := effType r e }
                   (effValues r { e with code := r.code, type := effType r e })).2 }
        refine ⟨(emitValues { e with code := r.code, type := effType r e }
                   (effValues r { e with code := r.code, type := effType r e })).2 ++ suf, ?_⟩
        rw [hsuf, List.append_assoc]

/-- Popping and cancelling only ever appends to the cancelled list. -/
theorem cancelPop_cancelled_prefix (s : RState) (k : Nat) :
    ∃ suf, (cancelPop s k).cancelled = s.cancelled ++ suf := by
  cases h : (popTask s.tasks k).1 with
  | none => exact ⟨[], by simp [cancelPop, h]⟩
  | some t => exact ⟨[t.tid], by simp [cancelPop, h]⟩

/-- Starting a task changes the cancelled list exactly as popping and
cancelling does. -/
theorem startTask_cancelled (s : RState) (k src : Nat) :
    (startTask s k src).cancelled = (cancelPop s k).cancelled := rfl

/-- remap_event only appends to the cancelled list: a task cancelled
before stays cancelled. -/
theorem remapEventGo_cancelled_prefix (src : Nat) (rules : List Remapping) :
    ∀ (e : Event) (s : RState),
      ∃ suf, (remapEventGo src e rules s).cancelled = s.cancelled ++ suf := by
  induction rules with
  | nil => exact fun e s => ⟨[], by simp [remapEventGo]⟩
  | cons r rs ih =>
    intro e s
    simp only [remapEventGo]
    by_cases hguard : (r.ignore_depress && !pressedOf e.value) = true
    · rw [if_pos hguard]
      exact ⟨[], by simp⟩
    · rw [if_neg hguard]
      by_cases hrep : r.rep = true
      · rw [if_pos hrep]
        by_cases hp : pressedOf e.value = true
        · rw [if_pos hp]
          obtain ⟨suf, hsuf⟩ :=
            ih { e with code := r.code, type := effType r e } (startTask s e.code src)
          obtain ⟨suf0, hsuf0⟩ := cancelPop_cancelled_prefix s e.code
          rw [startTask_cancelled, hsuf0, List.append_assoc] at hsuf
          exact ⟨suf0 ++ suf, hsuf⟩
        · rw [if_neg hp]
          obtain ⟨suf, hsuf⟩ :=
            ih { e with code := r.code, type := effType r e } (cancelPop s e.code)
          obtain ⟨suf0, hsuf0⟩ := cancelPop_cancelled_prefix s e.code
          rw [hsuf0, List.append_assoc] at hsuf
          exact ⟨suf0 ++ suf, hsuf⟩
      · rw [if_neg hrep]
        obtain ⟨suf, hsuf⟩ :=
          ih (emitValues { e with code := r.code, type := effType r e }
                (effValues r { e with code := r.code, type := effType r e })).1
             { s with output := s.output ++
                 (emitValues { e with code := r.code, type := effType r e }
                   (effValues r { e with code := r.code, type := effType r e })).2 }
        exact ⟨suf, hsuf⟩

/-! ## Claim C1 -/

/-- Claim C1 counterexample.  Rule on source code 5 with ignore_depress
and repeat; a press (value 1) spawns task 0; the subsequent release
(value 0) hits the early return of lines 71 to 72 before the
cancellation code of lines 81 to 83, so it emits nothing, cancels
nothing, and leaves task 0 outstanding, contradicting the claim that the
release still cancels the outstanding RepeatTask. -/
theorem claim1_counterexample :
    (remap_event [(5, [{ code := 30, ignore_depress := true, rep := true }])]
        { type := 1, code := 5, value := 0 }
        (remap_event [(5, [{ code := 30, ignore_depress := true, rep := true }])]
          { type := 1, code := 5, value := 1 } initState)).cancelled = [] ∧
    (remap_event [(5, [{ code := 30, ignore_depress := true, rep := true }])]
        { type := 1, code := 5, value := 0 }
        (remap_event [(5, [{ code := 30, ignore_depress := true, rep := true }])]
          { type := 1, code := 5, value := 1 } initState)).tasks
      = [{ key := 5, tid := 0, origin := 5 }] ∧
    (remap_event [(5, [{ code := 30, ignore_depress := true, rep := true }])]
        { type := 1, code := 5, value := 0 }
        (remap_event [(5, [{ code := 30, ignore_depress := true, rep := true }])]
          { type := 1, code := 5, value := 1 } initState)).output = [] :=
  ⟨rfl, rfl, rfl⟩

/-- Claim C1, amended.  When the first rule of the list for the source
code has ignore_on_release set and the event is not a press, remap_event
returns immediately with the state completely unchanged: no output event
is emitted, but also no outstanding RepeatTask is cancelled (the early
return of lines 71 to 72 precedes the cancellation of lines 81 to 83),
whether or not the rule has a repeat policy; any outstanding task keeps
repeating. -/
theorem claim1_theorem (tbl : List (Nat × List Remapping)) (r : Remapping)
    (rs : List Remapping) (e : Event) (s : RState)
    (hlook : lookupRules tbl e.code = r :: rs)
    (hig : r.ignore_depress = true) (hval : e.value ≠ 1) :
    remap_event tbl e s = s := by
  have hp : pressedOf e.value = false := by
    simp [pressedOf, hval]
  unfold remap_event
  rw [hlook]
  simp [remapEventGo, hig, hp]

/-- Witness for claim1_theorem at a concrete input: a release on a rule
with ignore_depress and repeat leaves a state holding an outstanding
uncancelled task exactly as it was. -/
theorem claim1_witness :
    remap_event [(5, [{ code := 30, ignore_depress := true, rep := true }])]
        { type := 1, code := 5, value := 0 }
        { tasks := [{ key := 5, tid := 0, origin := 5 }], cancelled := [],
          nextId := 1, output := [] }
      = { tasks := [{ key := 5, tid := 0, origin := 5 }], cancelled := [],
          nextId := 1, output := [] } :=
  claim1_theorem _ { code := 30, ignore_depress := true, rep := true } [] _ _
    rfl rfl (by decide)

/-! ## Claim C2 -/

/-- Claim C2 counterexample.  Source code 5 maps to the rule list
[A, B] with A = code 30 plus ignore_depress and B = code 31.  On a
release event the early return at rule A aborts the whole loop: nothing
at all is emitted, in particular rule B does not fire, although B alone
on the same release does emit its rewritten event.  This contradicts the
claim that all rules of the list fire for every input event value
including releases. -/
theorem claim2_counterexample :
    (remap_event [(5, [{ code := 30, ignore_depress := true }, { code := 31 }])]
        { type := 1, code := 5, value := 0 } initState).output = [] ∧
    (remap_event [(5, [{ code := 31 }])]
        { type := 1, code := 5, value := 0 } initState).output
      = [Emission.write { type := 1, code := 31, value := 0 }, Emission.syn] :=
  ⟨rfl, rfl⟩

/-- Claim C2, amended.  For a source code mapped to [A, B] where neither
rule has ignore_on_release set (and neither has a repeat policy, so both
emit inline), both rules fire for every input event value including
releases, and they fire in list order: the output stream gains first the
writes of A, all carrying code A.code, then the writes of B, all
carrying code B.code.  When some rule has ignore_on_release set and the
event value reaching it is not a press, processing returns at that rule
and later rules do not fire. -/
theorem claim2_theorem (tbl : List (Nat × List Remapping)) (A B : Remapping)
    (e : Event) (s : RState) (a b : Int) (as bs : List Int)
    (hlook : lookupRules tbl e.code = [A, B])
    (hAig : A.ignore_depress = false) (hBig : B.ignore_depress = false)
    (hArep : A.rep = false) (hBrep : B.rep = false)
    (hAval : A.value = some (a :: as)) (hBval : B.value = some (b :: bs)) :
    ∃ outA outB,
      (remap_event tbl e s).output = s.output ++ (outA ++ outB) ∧
      writesCodes outA = List.replicate (a :: as).length A.code ∧
      writesCodes outB = List.replicate (b :: bs).length B.code := by
  have hA2 : ∀ ev : Event, effValues A ev = a :: as := fun ev => by
    simp [effValues, hAval]
  have hB2 : ∀ ev : Event, effValues B ev = b :: bs := fun ev => by
    simp [effValues, hBval]
  unfold remap_event
  rw [hlook]
  simp only [remapEventGo, hAig, hBig, hArep, hBrep, Bool.false_and, Bool.false_eq_true,
    if_false, hA2, hB2, List.append_assoc]
  exact ⟨_, _, rfl, by rw [writesCodes_emitValues], by rw [writesCodes_emitValues]⟩

/-- Witness for claim2_theorem at a concrete input: a release on source
code 5 mapped to two plain rules emits the writes of the first rule and
then the writes of the second. -/
theorem claim2_witness :
    ∃ outA outB,
      (remap_event [(5, [{ code := 30, value := some [7] },
                         { code := 31, value := some [9] }])]
          { type := 1, code := 5, value := 0 } initState).output
        = initState.output ++ (outA ++ outB) ∧
      writesCodes outA = List.replicate [(7 : Int)].length 30 ∧
      writesCodes outB = List.replicate [(9 : Int)].length 31 :=
  claim2_theorem _ { code := 30, value := some [7] } { code := 31, value := some [9] }
    { type := 1, code := 5, value := 0 } initState 7 9 [] []
    rfl rfl rfl rfl rfl rfl rfl

/-! ## Claim C3 -/

/-- Claim C3 counterexample.  One binding is registered (N = 1: one grab
taken at line 187, one pump task spawned at line 200); after shutdown the
number of ungrab calls performed is 0, not the N = 1 the claim requires:
the source contains no ungrab call at all. -/
theorem claim3_counterexample :
    (shutdown (register_device initLoop)).grabbed = 1 ∧
    (shutdown (register_device initLoop)).ungrabCalls = 0 ∧
    ¬ (shutdown (register_device initLoop)).ungrabCalls
        = (shutdown (register_device initLoop)).grabbed :=
  ⟨rfl, rfl, by decide⟩

/-- Claim C3, amended.  After a termination request every task of the
loop, device pumps and repeat tasks alike, is cancelled and its
cancellation acknowledged by the gather call, and the loop stops; but no
grabbed physical device is ungrabbed: the shutdown path performs zero
ungrab calls and the grab count is unchanged (grabs are only released
implicitly when the process dies). -/
theorem claim3_theorem (l : LoopState) :
    ((shutdown l).tasks.all fun t => t.status == TaskStatus.cancelledAck) = true ∧
    (shutdown l).stopped = true ∧
    (shutdown l).ungrabCalls = l.ungrabCalls ∧
    (shutdown l).grabbed = l.grabbed := by
  refine ⟨?_, rfl, rfl, rfl⟩
  simp [shutdown, cancelTask, List.all_eq_true]

/-! ## Claim C4 -/

/-- Claim C4 counterexample.  Binding 1 remaps source code 5 to code 30
with repeat, binding 2 remaps the same source code 5 to code 40 with
repeat; both share the single process global repeat_tasks dictionary
(line 39), modelled by threading one RState through both calls.  A press
on binding 1 spawns task 0; a press on binding 2 pops that very slot and
cancels task 0, which binding 2 never spawned: processing an event on
one binding mutates the other bindings task registry, contradicting
per-binding privacy. -/
theorem claim4_counterexample :
    (remap_event [(5, [{ code := 30, rep := true }])]
        { type := 1, code := 5, value := 1 } initState).tasks
      = [{ key := 5, tid := 0, origin := 5 }] ∧
    (remap_event [(5, [{ code := 40, rep := true }])]
        { type := 1, code := 5, value := 1 }
        (remap_event [(5, [{ code := 30, rep := true }])]
          { type := 1, code := 5, value := 1 } initState)).cancelled = [0] ∧
    (remap_event [(5, [{ code := 40, rep := true }])]
        { type := 1, code := 5, value := 1 }
        (remap_event [(5, [{ code := 30, rep := true }])]
          { type := 1, code := 5, value := 1 } initState)).tasks
      = [{ key := 5, tid := 1, origin := 5 }] :=
  ⟨rfl, rfl, rfl⟩

/-- Claim C4, amended.  The repeat task registry is one process global
dictionary shared by every binding: whenever it holds a task under some
source code, a press of that source code processed through a repeat rule
of ANY remapping table, in particular the table of a different binding
than the one that spawned the task, pops that task and cancels it. -/
theorem claim4_theorem (tbl : List (Nat × List Remapping)) (r : Remapping)
    (rs : List Remapping) (e : Event) (s : RState)
    (t : TaskEntry) (rest : List TaskEntry)
    (hlook : lookupRules tbl e.code = r :: rs)
    (hrep : r.rep = true) (hv : e.value = 1)
    (hpop : popTask s.tasks e.code = (some t, rest)) :
    t.tid ∈ (remap_event tbl e s).cancelled := by
  have hp : pressedOf e.value = true := by simp [pressedOf, hv]
  unfold remap_event
  rw [hlook]
  simp only [remapEventGo, hp, Bool.not_true, Bool.and_false, Bool.false_eq_true,
    if_false, if_true, eq_self_iff_true, if_pos hrep]
  obtain ⟨suf, hsuf⟩ :=
    remapEventGo_cancelled_prefix e.code rs
      { e with code := r.code, type := effType r e } (startTask s e.code e.code)
  rw [hsuf, startTask_cancelled]
  simp [cancelPop, hpop]

/-- Witness for claim4_theorem at the concrete cross-binding input: the
state holding task 0 spawned by binding 1, processed by binding 2. -/
theorem claim4_witness :
    0 ∈ (remap_event [(5, [{ code := 40, rep := true }])]
        { type := 1, code := 5, value := 1 }
        { tasks := [{ key := 5, tid := 0, origin := 5 }], cancelled := [],
          nextId := 1, output := [] }).cancelled :=
  claim4_theorem _ { code := 40, rep := true } [] _ _
    { key := 5, tid := 0, origin := 5 } [] rfl rfl rfl rfl

/-! ## Claim C5 -/

/-- Claim C5 counterexample.  Source code 5 maps to the rule list
[A, B] with A = code 30, type 2, values [7, 0] and B = code 31 with type
and values unset.  On a press of (type 1, code 5, value 1) the claim
predicts that B emits the original source type 1 and the original source
value 1, that is the write (1, 31, 1).  But the loop mutates the event
in place: A overwrote event.type with 2 and its emission loop left
event.value at 0, so B emits the write (2, 31, 0); no write (1, 31, 1)
appears in the output. -/
theorem claim5_counterexample :
    (remap_event [(5, [{ code := 30, type := some 2, value := some [7, 0] },
                       { code := 31 }])]
        { type := 1, code := 5, value := 1 } initState).output
      = [Emission.write { type := 2, code := 30, value := 7 }, Emission.syn,
         Emission.write { type := 2, code := 30, value := 0 }, Emission.syn,
         Emission.write { type := 2, code := 31, value := 0 }, Emission.syn] ∧
    Emission.write { type := 1, code := 31, value := 1 }
      ∉ (remap_event [(5, [{ code := 30, type := some 2, value := some [7, 0] },
                           { code := 31 }])]
          { type := 1, code := 5, value := 1 } initState).output :=
  ⟨rfl, by decide⟩

/-- Claim C5, amended.  The unset target_type and values defaults are
taken from the event object as mutated by the earlier rules of the same
list, not from the original source event: a later rule inherits the type
written by an earlier type-overriding rule and the last value emitted by
an earlier rule.  For the FIRST rule of the list (so in particular for
every single-rule list) the claim holds as stated: with target_type and
values unset (and no repeat policy, no ignore_on_release), the rule
emits exactly one event carrying the original source type, the target
code, and the single original source value, followed by a
synchronization marker, before whatever later rules emit. -/
theorem claim5_theorem (tbl : List (Nat × List Remapping)) (r : Remapping)
    (rs : List Remapping) (e : Event) (s : RState)
    (hlook : lookupRules tbl e.code = r :: rs)
    (htype : r.type = none) (hvalue : r.value = none)
    (hrep : r.rep = false) (hig : r.ignore_depress = false) :
    ∃ rest, (remap_event tbl e s).output
      = s.output ++ ([Emission.write { e with code := r.code }, Emission.syn] ++ rest) := by
  have hT : effType r e = e.type := by simp [effType, htype]
  have hV : ∀ ev : Event, effValues r ev = [ev.value] := fun ev => by
    simp [effValues, hvalue]
  unfold remap_event
  rw [hlook]
  simp only [remapEventGo, hig, Bool.false_and, Bool.false_eq_true, if_false, hrep,
    hT, hV, emitValues]
  obtain ⟨suf, hsuf⟩ :=
    remapEventGo_output_prefix e.code rs { e with code := r.code }
      { s with output := s.output ++
          [Emission.write { e with code := r.code }, Emission.syn] }
  refine ⟨suf, ?_⟩
  rw [hsuf, List.append_assoc]

/-- Witness for claim5_theorem at a concrete input: a single bare rule
(code 31, everything else unset) on a press of (type 1, code 5, value 1)
emits the write (1, 31, 1) and a synchronization marker. -/
theorem claim5_witness :
    ∃ rest, (remap_event [(5, [{ code := 31 }])]
        { type := 1, code := 5, value := 1 } initState).output
      = initState.output ++
          ([Emission.write { type := 1, code := 31, value := 1 }, Emission.syn] ++ rest) :=
  claim5_theorem _ { code := 31 } [] { type := 1, code := 5, value := 1 } initState
    rfl rfl rfl rfl rfl

/-! ## Claim C6 -/

/-- Claim C6 counterexample.  A configured rule with value: [] (an empty
list) passes normalize_value unchanged, because an empty list satisfies
the type(value) is list early return of lines 149 to 150: after
normalization the values field is present and empty, contradicting the
claim that it is non-empty including for a configured empty list. -/
theorem claim6_counterexample :
    normalize_config
        [("BTN_EXTRA", [CfgMapping.rule { code := "KEY_X", value := some (CfgValue.list []) }])]
      = [("BTN_EXTRA", [CfgMapping.rule { code := "KEY_X", value := some (CfgValue.list []) }])] ∧
    valueAbsentOrNonEmptyList
        (normalize_value { code := "KEY_X", value := some (CfgValue.list []) }).value
      = false :=
  ⟨rfl, rfl⟩

/-- Claim C6, amended.  After normalization a present values entry is
always a list, and it is non-empty whenever the configured value was a
scalar (wrapped into a singleton) — but a configured list, including the
empty list, is preserved verbatim, so the non-emptiness invariant fails
exactly for a configured empty list.  (Resolution, lines 153 to 159,
rewrites only the code and type entries and never touches value.) -/
theorem claim6_theorem (r : CfgRule) (n : Int) (l : List Int) :
    (normalize_value { r with value := none }).value = none ∧
    (normalize_value { r with value := some (CfgValue.scalar n) }).value
      = some (CfgValue.list [n]) ∧
    (normalize_value { r with value := some (CfgValue.list l) }).value
      = some (CfgValue.list l) ∧
    valueAbsentOrNonEmptyList
      (normalize_value { r with value := some (CfgValue.scalar n) }).value = true :=
  ⟨rfl, rfl, rfl, rfl⟩

/-! ## Claim C7 -/

/-- Claim C7 counterexample.  Source code 5 maps to TWO repeat rules
(codes 30 and 31).  A single press spawns a task for each rule, and the
second task is keyed under 30, the first rules target code, because
original_code is read at line 73 from the event object whose code the
first rule already overwrote at line 74.  After one press, two repeat
tasks spawned by source code 5 are outstanding simultaneously and none
was cancelled, contradicting at most one RepeatTask per source code at
every instant. -/
theorem claim7_counterexample :
    (remap_event [(5, [{ code := 30, rep := true }, { code := 31, rep := true }])]
        { type := 1, code := 5, value := 1 } initState).tasks
      = [{ key := 5, tid := 0, origin := 5 }, { key := 30, tid := 1, origin := 5 }] ∧
    (remap_event [(5, [{ code := 30, rep := true }, { code := 31, rep := true }])]
        { type := 1, code := 5, value := 1 } initState).cancelled = [] :=
  ⟨rfl, rfl⟩

/-- Claim C7, amended.  For a source code whose rule list is a SINGLE
rule with a repeat policy, the claim holds: a press pops and cancels the
task stored under the source code, if any, before storing exactly one
fresh task under that source code, so two presses without an intervening
release never leave two repeaters.  With several repeat rules in one
list, later rules key their tasks by the previous rules target code and
one press leaves several outstanding repeaters for the same source
press. -/
theorem claim7_theorem (tbl : List (Nat × List Remapping)) (r : Remapping)
    (e : Event) (s : RState) (t : TaskEntry) (rest : List TaskEntry)
    (hlook : lookupRules tbl e.code = [r])
    (hrep : r.rep = true) (hv : e.value = 1)
    (hpop : popTask s.tasks e.code = (some t, rest))
    (hrest : ∀ u ∈ rest, u.key ≠ e.code) :
    (remap_event tbl e s).tasks
      = rest ++ [{ key := e.code, tid := s.nextId, origin := e.code }] ∧
    t.tid ∈ (remap_event tbl e s).cancelled ∧
    ((remap_event tbl e s).tasks.filter fun u => u.key == e.code).length = 1 := by
  have hp : pressedOf e.value = true := by simp [pressedOf, hv]
  have hfil : rest.filter (fun u => u.key == e.code) = [] := by
    rw [List.filter_eq_nil_iff]
    intro u hu
    simp [hrest u hu]
  unfold remap_event
  rw [hlook]
  simp only [remapEventGo, hp, Bool.not_true, Bool.and_false, Bool.false_eq_true,
    if_false, if_true, if_pos hrep]
  refine ⟨?_, ?_, ?_⟩
  · simp [startTask, cancelPop, hpop]
  · simp [startTask, cancelPop, hpop]
  · simp [startTask, cancelPop, hpop, List.filter_append, hfil]

/-- Witness for claim7_theorem at a concrete input: a second press of
source code 5 while task 0 is outstanding cancels task 0 and leaves
exactly the fresh task 1 under key 5. -/
theorem claim7_witness :
    (remap_event [(5, [{ code := 30, rep := true }])]
        { type := 1, code := 5, value := 1 }
        { tasks := [{ key := 5, tid := 0, origin := 5 }], cancelled := [],
          nextId := 1, output := [] }).tasks
      = [{ key := 5, tid := 1, origin := 5 }] ∧
    0 ∈ (remap_event [(5, [{ code := 30, rep := true }])]
        { type := 1, code := 5, value := 1 }
        { tasks := [{ key := 5, tid := 0, origin := 5 }], cancelled := [],
          nextId := 1, output := [] }).cancelled ∧
    ((remap_event [(5, [{ code := 30, rep := true }])]
        { type := 1, code := 5, value := 1 }
        { tasks := [{ key := 5, tid := 0, origin := 5 }], cancelled := [],
          nextId := 1, output := [] }).tasks.filter fun u => u.key == 5).length = 1 :=
  claim7_theorem _ { code := 30, rep := true } _ _
    { key := 5, tid := 0, origin := 5 } [] rfl rfl rfl rfl (by simp)

/-! ## Claim C8 -/

/-- The emissions of a cycle only depend on the type and code of the
event entering it, which the emission loop preserves, so every cycle of
a repeat run emits the same list. -/
theorem cycles_snd (values : List Int) (n : Nat) :
    ∀ e : Event, (cycles values n e).2
      = (List.replicate n (repeatCycleOut e values)).flatten := by
  induction n with
  | zero => intro e; simp [cycles]
  | succ n ih =>
    intro e
    have hfields := emitValues_fst_fields e values
    have hcongr : repeatCycleOut (emitValues e values).1 values = repeatCycleOut e values :=
      emitValues_congr _ _ values hfields.1 hfields.2
    simp only [cycles, ih, List.replicate_succ, List.flatten_cons]
    rw [hcongr]
    rfl

/-- One unfolding step of the repeat loop when the count check fails. -/
theorem repeatLoop_succ (fuel : Nat) (e : Event) (count : Int) (values : List Int)
    (h : ¬ (count = 0)) :
    repeatLoop (fuel + 1) e count values
      = match repeatLoop fuel (emitValues e values).1 (count - 1) values with
        | none => none
        | some p => some (p.1, (emitValues e values).2 ++ p.2) := by
  simp only [repeatLoop, if_neg h]
  cases repeatLoop fuel (emitValues e values).1 (count - 1) values with
  | none => rfl
  | some p => cases p with | mk a b => rfl

/-- With count n of at least 1 and fuel n + 1, the repeat loop runs
exactly n cycles, decrementing once per cycle, and then terminates on
its own (the count test at the top of the loop). -/
theorem repeatLoop_bounded (values : List Int) (n : Nat) :
    ∀ e : Event, repeatLoop (n + 1) e (n : Int) values = some (cycles values n e) := by
  induction n with
  | zero => intro e; simp [repeatLoop, cycles]
  | succ n ih =>
    intro e
    have hne : ¬ (((n + 1 : Nat) : Int) = 0) := by
      exact_mod_cast Nat.succ_ne_zero n
    have hsub : ((n + 1 : Nat) : Int) - 1 = (n : Int) := by push_cast; ring
    rw [repeatLoop_succ _ _ _ _ hne, hsub, ih]
    rfl

/-- Claim C8, confirmed.  For a bounded count n of at least 1,
repeat_event terminates by itself (it returns within fuel n + 1, no
cancellation involved) after emitting exactly n full cycles through the
values list: the output is n copies of the one-cycle emission, which
writes each value in order, each immediately followed by a
synchronization marker; the count is decremented once per full cycle,
never per value, as the n + 1 loop iterations for n cycles show. -/
theorem claim8_theorem (e : Event) (values : List Int) (n : Nat) (h : 1 ≤ n) :
    repeat_event e (n : Int) values (n + 1)
      = some ((cycles values n e).1,
          (List.replicate n (repeatCycleOut e values)).flatten) := by
  have hne : ¬ (((n : Nat) : Int) = 0) := by
    exact_mod_cast Nat.one_le_iff_ne_zero.mp h
  unfold repeat_event
  rw [if_neg hne, repeatLoop_bounded, ← cycles_snd]

/-- Witness for claim8_theorem at a concrete input: count 3 with values
[1, 0] emits exactly three write 1, syn, write 0, syn cycles. -/
theorem claim8_witness :
    repeat_event { type := 1, code := 30, value := 1 } ((3 : Nat) : Int) [1, 0] 4
      = some ((cycles [1, 0] 3 { type := 1, code := 30, value := 1 }).1,
          (List.replicate 3
            (repeatCycleOut { type := 1, code := 30, value := 1 } [1, 0])).flatten) ∧
    (List.replicate 3 (repeatCycleOut { type := 1, code := 30, value := 1 } [1, 0])).flatten
      = [Emission.write { type := 1, code := 30, value := 1 }, Emission.syn,
         Emission.write { type := 1, code := 30, value := 0 }, Emission.syn,
         Emission.write { type := 1, code := 30, value := 1 }, Emission.syn,
         Emission.write { type := 1, code := 30, value := 0 }, Emission.syn,
         Emission.write { type := 1, code := 30, value := 1 }, Emission.syn,
         Emission.write { type := 1, code := 30, value := 0 }, Emission.syn] :=
  ⟨claim8_theorem { type := 1, code := 30, value := 1 } [1, 0] 3 (by decide), rfl⟩

/-! ## Claim C9 -/

/-- Normalizing a value entry twice is the same as normalizing it once. -/
theorem normalize_value_idem (r : CfgRule) :
    normalize_value (normalize_value r) = normalize_value r := by
  cases hv : r.value with
  | none => simp [normalize_value, hv]
  | some v =>
    cases v with
    | scalar n => simp [normalize_value, hv]
    | list l => simp [normalize_value, hv]

/-- Normalizing one rule list item twice is the same as once. -/
theorem normalize_mapping_idem (m : CfgMapping) :
    normalize_mapping (normalize_mapping m) = normalize_mapping m := by
  cases m with
  | str s => simp [normalize_mapping, normalize_value]
  | rule r => simp [normalize_mapping, normalize_value_idem]

/-- Normalizing a whole rule list twice is the same as once. -/
theorem normalize_mapping_map_idem (ms : List CfgMapping) :
    (ms.map normalize_mapping).map normalize_mapping = ms.map normalize_mapping := by
  induction ms with
  | nil => rfl
  | cons m rest ih => simp [normalize_mapping_idem, ih]

/-- Claim C9, confirmed.  The normalization pass is idempotent:
normalizing an already-normalized remapping table yields the very same
structure; a bare string becomes a rule object holding only the code
key, a scalar value becomes the singleton list, and a list value is
unchanged. -/
theorem claim9_theorem (remappings : List (String × List CfgMapping))
    (s : String) (r : CfgRule) (n : Int) (l : List Int) :
    normalize_config (normalize_config remappings) = normalize_config remappings ∧
    normalize_mapping (CfgMapping.str s) = CfgMapping.rule { code := s } ∧
    normalize_mapping (CfgMapping.rule { r with value := some (CfgValue.scalar n) })
      = CfgMapping.rule { r with value := some (CfgValue.list [n]) } ∧
    normalize_mapping (CfgMapping.rule { r with value := some (CfgValue.list l) })
      = CfgMapping.rule { r with value := some (CfgValue.list l) } := by
  refine ⟨?_, rfl, rfl, rfl⟩
  simp only [normalize_config, List.map_map]
  refine List.map_congr_left (fun kv _ => ?_)
  simp [Function.comp]
  exact fun a _ => normalize_mapping_idem a

/-! ## Claim C10 -/

/-- Claim C10 counterexample.  A rule with BOTH a repeat policy and
ignore_on_release, an outstanding task for its source code, and an
autorepeat event (value 2): the early return of lines 71 to 72 fires
before the cancellation of lines 81 to 83, so the autorepeat event does
NOT cancel the outstanding RepeatTask of this repeat-policy rule; the
state is completely unchanged. -/
theorem claim10_counterexample :
    remap_event [(5, [{ code := 30, ignore_depress := true, rep := true }])]
        { type := 1, code := 5, value := 2 }
        { tasks := [{ key := 5, tid := 0, origin := 5 }], cancelled := [],
          nextId := 1, output := [] }
      = { tasks := [{ key := 5, tid := 0, origin := 5 }], cancelled := [],
          nextId := 1, output := [] } :=
  rfl

/-- Claim C10, amended.  A key event counts as pressed exactly when its
value equals 1, and every other value, release 0 and autorepeat 2 alike,
is treated as not pressed.  Consequently, for a rule with a repeat
policy and WITHOUT ignore_on_release, an autorepeat event (value 2) pops
and cancels the outstanding RepeatTask and starts no new one; and for a
rule with ignore_on_release an autorepeat event produces no output (the
whole state is unchanged) — but in a rule combining both, the
ignore_on_release early return also skips the cancellation. -/
theorem claim10_theorem :
    (∀ v : Int, pressedOf v = true ↔ v = 1) ∧
    (∀ (tbl : List (Nat × List Remapping)) (r : Remapping) (e : Event) (s : RState)
       (t : TaskEntry) (rest : List TaskEntry),
       lookupRules tbl e.code = [r] → r.rep = true → r.ignore_depress = false →
       e.value = 2 → popTask s.tasks e.code = (some t, rest) →
       (remap_event tbl e s).tasks = rest ∧
       (remap_event tbl e s).cancelled = s.cancelled ++ [t.tid] ∧
       (remap_event tbl e s).nextId = s.nextId ∧
       (remap_event tbl e s).output = s.output) ∧
    (∀ (tbl : List (Nat × List Remapping)) (r : Remapping) (rs : List Remapping)
       (e : Event) (s : RState),
       lookupRules tbl e.code = r :: rs → r.ignore_depress = true → e.value = 2 →
       remap_event tbl e s = s) := by
  refine ⟨fun v => by simp [pressedOf], ?_, ?_⟩
  · intro tbl r e s t rest hlook hrep hig hv hpop
    have hp : pressedOf e.value = false := by simp [pressedOf, hv]
    unfold remap_event
    rw [hlook]
    simp only [remapEventGo, hp, hig, Bool.false_and, Bool.false_eq_true, if_false,
      if_pos hrep]
    exact ⟨by simp [cancelPop, hpop], by simp [cancelPop, hpop], rfl, rfl⟩
  · intro tbl r rs e s hlook hig hv
    have hp : pressedOf e.value = false := by simp [pressedOf, hv]
    unfold remap_event
    rw [hlook]
    simp [remapEventGo, hig, hp]

/-- Witness for claim10_theorem at concrete inputs: value 2 is not
pressed; an autorepeat on a plain repeat rule cancels task 0 and leaves
the registry empty; an autorepeat on an ignore_on_release rule leaves
the state untouched. -/
theorem claim10_witness :
    (pressedOf 2 = true ↔ (2 : Int) = 1) ∧
    (remap_event [(5, [{ code := 30, rep := true }])]
        { type := 1, code := 5, value := 2 }
        { tasks := [{ key := 5, tid := 0, origin := 5 }], cancelled := [],
          nextId := 1, output := [] }).tasks = [] ∧
    (remap_event [(5, [{ code := 30, rep := true }])]
        { type := 1, code := 5, value := 2 }
        { tasks := [{ key := 5, tid := 0, origin := 5 }], cancelled := [],
          nextId := 1, output := [] }).cancelled = [0] ∧
    remap_event [(5, [{ code := 31, ignore_depress := true }])]
        { type := 1, code := 5, value := 2 } initState = initState :=
  ⟨claim10_theorem.1 2,
   (claim10_theorem.2.1 [(5, [{ code := 30, rep := true }])] { code := 30, rep := true }
      { type := 1, code := 5, value := 2 }
      { tasks := [{ key := 5, tid := 0, origin := 5 }], cancelled := [],
        nextId := 1, output := [] }
      { key := 5, tid := 0, origin := 5 } [] rfl rfl rfl rfl rfl).1,
   (claim10_theorem.2.1 [(5, [{ code := 30, rep := true }])] { code := 30, rep := true }
      { type := 1, code := 5, value := 2 }
      { tasks := [{ key := 5, tid := 0, origin := 5 }], cancelled := [],
        nextId := 1, output := [] }
      { key := 5, tid := 0, origin := 5 } [] rfl rfl rfl rfl rfl).2.1,
   claim10_theorem.2.2 [(5, [{ code := 31, ignore_depress := true }])]
      { code := 31, ignore_depress := true } []
      { type := 1, code := 5, value := 2 } initState rfl rfl rfl⟩

end Evdev
